import Mathlib

/-!
Verification development for the markdown-to-PDF gateway (src/main.py).

The Python program is shallowly embedded:
- the module-level dict `pdf_files : Dict[str, datetime]` becomes an
  association list `List (String × Nat)` (expiry as seconds on an abstract
  clock); dict assignment is `insertKey`, `del` is `eraseKey`;
- the serving directory `static/pdfs` becomes an association list from
  filename to byte content `List (String × List Nat)`;
- `datetime.now()` values are passed in explicitly: as a broken-down
  `DateTime` where the code renders it with strftime, and as plain seconds
  where the code only compares or adds (`timedelta(hours=1)` is 3600 s);
- `uuid.uuid4()` is an externally drawn 128-bit number passed in;
- the external converter call and OS write failures are oracles passed in;
- a FastAPI `HTTPException` raised inside the endpoint body is caught by
  the blanket `except Exception` at main.py:295, whose handler re-raises
  `HTTPException(500, "Error: " + str(e))`; `str` of an HTTPException is
  `f"{status_code}: {detail}"`.  The embedding bakes in this control flow.
-/

/-! ## Association-list maps (Python dict / directory content) -/

def lookupKey {α : Type} (k : String) : List (String × α) → Option α
  | [] => none
  | p :: r => if p.1 = k then some p.2 else lookupKey k r

def eraseKey {α : Type} (k : String) : List (String × α) → List (String × α)
  | [] => []
  | p :: r => if p.1 = k then eraseKey k r else p :: eraseKey k r

def insertKey {α : Type} (k : String) (v : α) (m : List (String × α)) : List (String × α) :=
  (k, v) :: eraseKey k m

/-! ## Timestamp and token rendering (main.py:205-206) -/

/-- Broken-down wall-clock time, as produced by `datetime.now()`. -/
structure DateTime where
  year : Nat
  month : Nat
  day : Nat
  hour : Nat
  minute : Nat
  second : Nat
deriving DecidableEq

/-- Decimal digit character, `0 ≤ n ≤ 9` maps to the chars 0-9. -/
def digitChar (n : Nat) : Char := Char.ofNat (48 + n)

/-- Two-digit zero-padded decimal rendering, as strftime %m %d %H %M %S
produce for the in-range field values datetime guarantees (`n < 100`). -/
def pad2Chars (n : Nat) : List Char := [digitChar (n / 10 % 10), digitChar (n % 10)]

/-- Four-digit zero-padded decimal rendering, as strftime %Y produces for
`n < 10000` (datetime years are 1..9999). -/
def pad4Chars (n : Nat) : List Char :=
  [digitChar (n / 1000 % 10), digitChar (n / 100 % 10), digitChar (n / 10 % 10), digitChar (n % 10)]

/-- Characters of `datetime.now().strftime("%Y%m%d_%H%M%S")` (main.py:205). -/
def strftimeChars (dt : DateTime) : List Char :=
  pad4Chars dt.year ++ pad2Chars dt.month ++ pad2Chars dt.day ++ ['_'] ++
    pad2Chars dt.hour ++ pad2Chars dt.minute ++ pad2Chars dt.second

def strftime (dt : DateTime) : String := String.mk (strftimeChars dt)

/-- Lowercase hexadecimal digit character, as Python hex rendering uses. -/
def hexDigitChar (n : Nat) : Char :=
  if n < 10 then Char.ofNat (48 + n) else Char.ofNat (87 + n)

/-- The `w` low-order hex digits of `n`, most significant first: for
`n < 16 ^ w` this is the zero-padded hex rendering `uuid.hex` uses. -/
def hexDigits (n : Nat) : Nat → List Char
  | 0 => []
  | w + 1 => hexDigits (n / 16) w ++ [hexDigitChar (n % 16)]

/-- Characters of `uuid.uuid4().hex[:8]` (main.py:206): the first 8 of the
32 hex digits of the drawn 128-bit value `u`. -/
def uuidHex8Chars (u : Nat) : List Char := (hexDigits u 32).take 8

def uuidHex8 (u : Nat) : String := String.mk (uuidHex8Chars u)

/-- The generated filename `f"doc_{timestamp}_{uuid.uuid4().hex[:8]}.pdf"`
(main.py:206). -/
def mkFilename (dt : DateTime) (u : Nat) : String :=
  "doc_" ++ strftime dt ++ "_" ++ uuidHex8 u ++ ".pdf"

/-! ## System state: the Artifact Store and the serving directory -/

/-- The mutable state the program shares: `pdf_files` (main.py:40, filename
to expiry time) and the contents of the serving directory `static/pdfs`. -/
structure SysState where
  pdf_files : List (String × Nat)
  fs : List (String × List Nat)
deriving DecidableEq

/-! ## Retention sweep (cleanup_old_files, main.py:175-195) -/

/-- The expired ids selected at cycle start (main.py:180-183): filenames
whose stored expiry is strictly earlier than the captured current time. -/
def expiredList (now : Nat) (st : SysState) : List String :=
  (st.pdf_files.filter (fun p => decide (now > p.2))).map Prod.fst

/-- One iteration of the per-file loop body (main.py:186-192).  `os.remove`
raises `OSError` when the file is absent or when the OS fails the unlink
(`fail fn` models the latter); the raise skips the `del` and is swallowed
by `except (OSError, KeyError): pass`, so the state is unchanged.  On
success both the file and the metadata entry are removed. -/
def sweepOne (fail : String → Bool) (st : SysState) (fn : String) : SysState :=
  if fail fn || (lookupKey fn st.fs).isNone then st
  else ⟨eraseKey fn st.pdf_files, eraseKey fn st.fs⟩

/-- One sweep cycle of `cleanup_old_files` (main.py:177-192): capture the
time, select the expired ids, run the loop body on each. -/
def cleanupCycle (now : Nat) (fail : String → Bool) (st : SysState) : SysState :=
  (expiredList now st).foldl (sweepOne fail) st

/-! ## Artifact publisher (save_pdf_get_url, main.py:202-217) -/

/-- Outcome of `open(filepath, "wb"); f.write(pdf_content)`: success, a
raise before the file is created, or a raise after creation with only
`written` bytes on disk.  Failure constructors carry `str(e)`. -/
inductive WriteOutcome where
  | success
  | failOnOpen (msg : String)
  | failAfterOpen (written : List Nat) (msg : String)
deriving DecidableEq

/-- Result of `save_pdf_get_url`: normal return with the new state and the
url, or a propagating write exception with the state it leaves behind. -/
inductive PublishResult where
  | ok (st : SysState) (url : String)
  | wErr (st : SysState) (msg : String)
deriving DecidableEq

def PublishResult.stateOf : PublishResult → SysState
  | .ok st _ => st
  | .wErr st _ => st

def PublishResult.urlOf : PublishResult → Option String
  | .ok _ url => some url
  | .wErr _ _ => none

/-- `save_pdf_get_url(pdf_content, request)` (main.py:202-217).  `tName` is
the `datetime.now()` of line 205 (rendered into the filename), `tReg` the
`datetime.now()` of line 214 on the comparison clock, `u` the drawn uuid.
The file is written first; only if the write returns is the id registered
with expiry `tReg + 3600` (one hour), and the url
`f"{request.base_url}pdfs/{filename}"` returned. -/
def save_pdf_get_url (content : List Nat) (tName : DateTime) (tReg : Nat) (u : Nat)
    (baseUrl : String) (w : WriteOutcome) (st : SysState) : PublishResult :=
  let filename := mkFilename tName u
  match w with
  | .success =>
      .ok ⟨insertKey filename (tReg + 3600) st.pdf_files, insertKey filename content st.fs⟩
        (baseUrl ++ "pdfs/" ++ filename)
  | .failOnOpen msg => .wErr st msg
  | .failAfterOpen written msg => .wErr ⟨st.pdf_files, insertKey filename written st.fs⟩ msg

/-! ## The /text-input endpoint (text_input_to_pdf, main.py:219-300) -/

/-- What the external converter call yields.  In httpx,
`TimeoutException` is a subclass of `RequestError`, so both error kinds
are caught by the `except httpx.RequestError` clause at main.py:288. -/
inductive UpstreamResult where
  | resp (status : Nat) (content : List Nat) (text : String)
  | netError (msg : String)
  | timeoutError (msg : String)
deriving DecidableEq

/-- The HTTP response the endpoint produces for the client. -/
inductive Response where
  | errorResp (status : Nat) (detail : String)
  | jsonOk (pdf_url : String) (message : String)
  | pdfStream (content : List Nat)
deriving DecidableEq

def Response.statusOf : Response → Nat
  | .errorResp s _ => s
  | .jsonOk _ _ => 200
  | .pdfStream _ => 200

/-- Result of one endpoint invocation: the client response, the list of
markdown payloads sent to the external converter (empty when no upstream
call was attempted), and the final shared state. -/
structure Outcome where
  response : Response
  sent : List String
  st : SysState
deriving DecidableEq

/-- `text_input_to_pdf` (main.py:219-300), with the outer
`except Exception` semantics baked in: every `HTTPException(s, d)` raised
inside the `try` of line 221 is caught at line 295 and re-raised as
`HTTPException(500, "Error: " + f"{s}: {d}")`; a write `OSError e`
reaching line 295 becomes `HTTPException(500, "Error: " + str(e))`. -/
def text_input_to_pdf (text : String) (acceptJson : Bool) (baseUrl : String)
    (upstream : UpstreamResult) (tName : DateTime) (tReg : Nat) (u : Nat)
    (w : WriteOutcome) (st : SysState) : Outcome :=
  if text.length > 100000 then
    { response := .errorResp 500
        ("Error: 400: Markdown content too large: " ++ toString text.length ++
          " bytes. Maximum allowed is 100KB."),
      sent := [], st := st }
  else
    match upstream with
    | .resp status rcontent rtext =>
        if status ≠ 200 then
          { response := .errorResp 500
              ("Error: " ++ toString status ++ ": External API error: " ++ rtext),
            sent := [text], st := st }
        else
          match save_pdf_get_url rcontent tName tReg u baseUrl w st with
          | .ok st1 url =>
              { response := if acceptJson then .jsonOk url "PDF generated successfully"
                  else .pdfStream rcontent,
                sent := [text], st := st1 }
          | .wErr st1 msg =>
              { response := .errorResp 500 ("Error: " ++ msg), sent := [text], st := st1 }
    | .netError msg =>
        { response := .errorResp 500 ("Error: 500: Request error to external API: " ++ msg),
          sent := [text], st := st }
    | .timeoutError msg =>
        { response := .errorResp 500 ("Error: 500: Request error to external API: " ++ msg),
          sent := [text], st := st }

/-! ## The /fixed-input endpoint and the static file server -/

/-- The fixed, hardcoded markdown document of the /fixed-input flow. -/
def fixedMarkdown : String := "# Hello World\n\nThis is a fixed markdown content."

/-- Python `str.lower()` on the character list of a string; it agrees with
`str.lower` on the ASCII inputs the endpoint compares. -/
def pyLower (s : String) : String := String.mk (s.data.map Char.toLower)

/-- Modelled from the spec: the `/fixed-input` endpoint is not present in
the provided source file; per the spec (section 6), if the lowercase
comparison of `text` is not exactly "go" the endpoint responds with a
client error (400) and makes no upstream call; otherwise it performs the
same conversion flow against the fixed, hardcoded markdown document. -/
def fixed_input_to_pdf (text : String) (acceptJson : Bool) (baseUrl : String)
    (upstream : UpstreamResult) (tName : DateTime) (tReg : Nat) (u : Nat)
    (w : WriteOutcome) (st : SysState) : Outcome :=
  if pyLower text ≠ "go" then
    { response := .errorResp 400 "Invalid input. Send go to generate the fixed PDF.",
      sent := [], st := st }
  else
    text_input_to_pdf fixedMarkdown acceptJson baseUrl upstream tName tReg u w st

/-- The static mount `app.mount("/pdfs", StaticFiles(directory=PDF_DIR))`
(main.py:37): a GET of `/pdfs/<fname>` returns the bytes of the file
`<fname>` in the serving directory, or not-found when absent. -/
def staticFetch (st : SysState) (fname : String) : Option (List Nat) :=
  lookupKey fname st.fs

/-- A concrete wall-clock instant used by witnesses. -/
def dt0 : DateTime := ⟨2025, 1, 2, 3, 4, 5⟩

/-- A concrete empty initial state used by witnesses. -/
def st0 : SysState := ⟨[], []⟩

/-! ## Helper lemmas: association-list maps -/

theorem lookupKey_eraseKey_self {α : Type} (k : String) (m : List (String × α)) :
    lookupKey k (eraseKey k m) = none := by
  induction m with
  | nil => rfl
  | cons p r ih =>
      by_cases h : p.1 = k
      · simpa [eraseKey, h] using ih
      · simpa [eraseKey, lookupKey, h] using ih

theorem lookupKey_eraseKey_ne {α : Type} {k1 k : String} (h : k1 ≠ k)
    (m : List (String × α)) : lookupKey k1 (eraseKey k m) = lookupKey k1 m := by
  induction m with
  | nil => rfl
  | cons p r ih =>
      have hk : k ≠ k1 := fun e => h e.symm
      by_cases hp : p.1 = k
      · simp [eraseKey, lookupKey, hp, hk, ih]
      · by_cases hq : p.1 = k1
        · simp [eraseKey, lookupKey, hp, hq, h]
        · simp [eraseKey, lookupKey, hp, hq, ih]

theorem lookupKey_insertKey_self {α : Type} (k : String) (v : α)
    (m : List (String × α)) : lookupKey k (insertKey k v m) = some v := by
  simp [insertKey, lookupKey]

theorem lookupKey_insertKey_ne {α : Type} {k1 k : String} (h : k1 ≠ k) (v : α)
    (m : List (String × α)) : lookupKey k1 (insertKey k v m) = lookupKey k1 m := by
  have hk : k ≠ k1 := fun e => h e.symm
  simp [insertKey, lookupKey, hk, lookupKey_eraseKey_ne h]

/-! ## Helper lemmas: the sweep loop -/

theorem sweepOne_lookup_ne (fail : String → Bool) (st : SysState) {g fn : String}
    (h : g ≠ fn) :
    lookupKey fn (sweepOne fail st g).pdf_files = lookupKey fn st.pdf_files ∧
    lookupKey fn (sweepOne fail st g).fs = lookupKey fn st.fs := by
  have hfn : fn ≠ g := fun e => h e.symm
  unfold sweepOne
  split
  · exact ⟨rfl, rfl⟩
  · exact ⟨lookupKey_eraseKey_ne hfn _, lookupKey_eraseKey_ne hfn _⟩

theorem sweepOne_skip (fail : String → Bool) (st : SysState) (fn : String)
    (h : (fail fn || (lookupKey fn st.fs).isNone) = true) :
    sweepOne fail st fn = st := by
  unfold sweepOne
  simp [h]

theorem sweepOne_hit (fail : String → Bool) (st : SysState) (fn : String)
    (h : (fail fn || (lookupKey fn st.fs).isNone) = false) :
    lookupKey fn (sweepOne fail st fn).pdf_files = none ∧
    lookupKey fn (sweepOne fail st fn).fs = none := by
  unfold sweepOne
  simp only [h]
  simp [lookupKey_eraseKey_self]

theorem foldl_sweep_frame (fail : String → Bool) {fn : String} (l : List String) :
    ∀ st : SysState, fn ∉ l →
      lookupKey fn (l.foldl (sweepOne fail) st).pdf_files = lookupKey fn st.pdf_files ∧
      lookupKey fn (l.foldl (sweepOne fail) st).fs = lookupKey fn st.fs := by
  induction l with
  | nil => exact fun st _ => ⟨rfl, rfl⟩
  | cons g t ih =>
      intro st h
      have hg : g ≠ fn := fun e => h (by simp [e])
      have ht : fn ∉ t := fun m => h (List.mem_cons_of_mem g m)
      have h1 := sweepOne_lookup_ne fail st hg
      have h2 := ih (sweepOne fail st g) ht
      exact ⟨h2.1.trans h1.1, h2.2.trans h1.2⟩

theorem foldl_sweep_mem (fail : String → Bool) {fn : String} (l : List String) :
    ∀ st : SysState, l.Nodup → fn ∈ l →
      ((fail fn || (lookupKey fn st.fs).isNone) = true →
        lookupKey fn (l.foldl (sweepOne fail) st).pdf_files = lookupKey fn st.pdf_files ∧
        lookupKey fn (l.foldl (sweepOne fail) st).fs = lookupKey fn st.fs) ∧
      ((fail fn || (lookupKey fn st.fs).isNone) = false →
        lookupKey fn (l.foldl (sweepOne fail) st).pdf_files = none ∧
        lookupKey fn (l.foldl (sweepOne fail) st).fs = none) := by
  induction l with
  | nil => intro st _ hmem; exact absurd hmem (List.not_mem_nil fn)
  | cons g t ih =>
      intro st hnd hmem
      by_cases he : fn = g
      · subst he
        have hnt : fn ∉ t := (List.nodup_cons.mp hnd).1
        constructor
        · intro hc
          have hskip : sweepOne fail st fn = st := sweepOne_skip fail st fn hc
          simp only [List.foldl_cons, hskip]
          exact foldl_sweep_frame fail t st hnt
        · intro hc
          have hhit := sweepOne_hit fail st fn hc
          have hfr := foldl_sweep_frame fail t (sweepOne fail st fn) hnt
          exact ⟨hfr.1.trans hhit.1, hfr.2.trans hhit.2⟩
      · have hg : g ≠ fn := fun e => he e.symm
        have hmt : fn ∈ t := (List.mem_cons.mp hmem).resolve_left he
        have h1 := sweepOne_lookup_ne fail st hg
        have ih2 := ih (sweepOne fail st g) (List.nodup_cons.mp hnd).2 hmt
        rw [h1.1, h1.2] at ih2
        exact ih2

theorem sweepOne_keep (fail : String → Bool) (st : SysState) (g fn : String) :
    lookupKey fn (sweepOne fail st g).pdf_files = lookupKey fn st.pdf_files ∨
    lookupKey fn (sweepOne fail st g).pdf_files = none := by
  unfold sweepOne
  split
  · exact .inl rfl
  · by_cases h : fn = g
    · subst h; exact .inr (lookupKey_eraseKey_self fn _)
    · exact .inl (lookupKey_eraseKey_ne h _)

theorem foldl_sweep_keep (fail : String → Bool) (l : List String) :
    ∀ (st : SysState) (fn : String),
      lookupKey fn (l.foldl (sweepOne fail) st).pdf_files = lookupKey fn st.pdf_files ∨
      lookupKey fn (l.foldl (sweepOne fail) st).pdf_files = none := by
  induction l with
  | nil => exact fun st fn => .inl rfl
  | cons g t ih =>
      intro st fn
      rcases ih (sweepOne fail st g) fn with h | h
      · rcases sweepOne_keep fail st g fn with h2 | h2
        · exact .inl (h.trans h2)
        · exact .inr (h.trans h2)
      · exact .inr h

/-! ## Helper lemmas: hex and timestamp rendering -/

theorem hexDigits_length (w : Nat) : ∀ n : Nat, (hexDigits n w).length = w := by
  induction w with
  | zero => intro n; rfl
  | succ w ih => intro n; simp [hexDigits, ih]

theorem hexDigits_split (a b : Nat) : ∀ n : Nat,
    hexDigits n (a + b) = hexDigits (n / 16 ^ b) a ++ hexDigits n b := by
  induction b with
  | zero => intro n; simp [hexDigits]
  | succ b ih =>
      intro n
      calc hexDigits n (a + (b + 1))
          = hexDigits (n / 16) (a + b) ++ [hexDigitChar (n % 16)] := rfl
        _ = (hexDigits (n / 16 / 16 ^ b) a ++ hexDigits (n / 16) b) ++
              [hexDigitChar (n % 16)] := by rw [ih]
        _ = hexDigits (n / 16 / 16 ^ b) a ++
              (hexDigits (n / 16) b ++ [hexDigitChar (n % 16)]) := List.append_assoc _ _ _
        _ = hexDigits (n / 16 ^ (b + 1)) a ++ hexDigits n (b + 1) := by
              rw [Nat.div_div_eq_div_mul, ← Nat.pow_succ']
              rfl

theorem uuidHex8Chars_eq (u : Nat) : uuidHex8Chars u = hexDigits (u / 2 ^ 96) 8 := by
  have h16 : (16 : Nat) ^ 24 = 2 ^ 96 := by norm_num
  have hsplit := hexDigits_split 8 24 u
  have hlen : (hexDigits (u / 16 ^ 24) 8).length = 8 := hexDigits_length 8 _
  unfold uuidHex8Chars
  rw [show (32 : Nat) = 8 + 24 from rfl, hsplit,
    List.take_append_of_le_length (le_of_eq hlen.symm),
    List.take_of_length_le (le_of_eq hlen), h16]

theorem uuidHex8Chars_length (u : Nat) : (uuidHex8Chars u).length = 8 := by
  rw [uuidHex8Chars_eq]; exact hexDigits_length 8 _

theorem hexDigitChar_inj :
    ∀ a : Nat, a < 16 → ∀ b : Nat, b < 16 → hexDigitChar a = hexDigitChar b → a = b := by
  decide

theorem hexDigits_inj (w : Nat) : ∀ n m : Nat, n < 16 ^ w → m < 16 ^ w →
    hexDigits n w = hexDigits m w → n = m := by
  induction w with
  | zero =>
      intro n m hn hm _
      simp only [Nat.pow_zero, Nat.lt_one_iff] at hn hm
      omega
  | succ w ih =>
      intro n m hn hm he
      simp only [hexDigits] at he
      have hlen : (hexDigits (n / 16) w).length = (hexDigits (m / 16) w).length := by
        rw [hexDigits_length, hexDigits_length]
      have hp := List.append_inj he hlen
      have hn2 : n / 16 < 16 ^ w := by
        rw [Nat.pow_succ] at hn
        exact (Nat.div_lt_iff_lt_mul (by norm_num)).mpr hn
      have hm2 : m / 16 < 16 ^ w := by
        rw [Nat.pow_succ] at hm
        exact (Nat.div_lt_iff_lt_mul (by norm_num)).mpr hm
      have h1 : n / 16 = m / 16 := ih _ _ hn2 hm2 hp.1
      have hc : hexDigitChar (n % 16) = hexDigitChar (m % 16) := by
        have := hp.2
        simpa using this
      have h2 : n % 16 = m % 16 :=
        hexDigitChar_inj _ (Nat.mod_lt _ (by norm_num)) _ (Nat.mod_lt _ (by norm_num)) hc
      omega

/-- The sixteen lowercase hexadecimal characters. -/
def hexAlphabet : List Char := "0123456789abcdef".data

theorem hexDigitChar_mem_alphabet : ∀ a : Nat, a < 16 → hexDigitChar a ∈ hexAlphabet := by
  decide

theorem hexDigits_mem (w : Nat) : ∀ (n : Nat) (c : Char), c ∈ hexDigits n w →
    ∃ a : Nat, a < 16 ∧ c = hexDigitChar a := by
  induction w with
  | zero => intro n c h; exact absurd h (List.not_mem_nil c)
  | succ w ih =>
      intro n c h
      simp only [hexDigits, List.mem_append, List.mem_singleton] at h
      rcases h with h | h
      · exact ih _ _ h
      · exact ⟨n % 16, Nat.mod_lt _ (by norm_num), h⟩

theorem strftimeChars_length (dt : DateTime) : (strftimeChars dt).length = 15 := by
  simp [strftimeChars, pad4Chars, pad2Chars]

/-! ## Helper lemmas: strings as character lists -/

theorem strData_append (s t : String) : (s ++ t).data = s.data ++ t.data := by
  cases s; cases t; rfl

theorem strExt {s t : String} (h : s.data = t.data) : s = t := by
  cases s; cases t; exact congrArg String.mk h

theorem mkFilename_data (dt : DateTime) (u : Nat) :
    (mkFilename dt u).data =
      "doc_".data ++ (strftimeChars dt ++ ('_' :: (uuidHex8Chars u ++ ".pdf".data))) := by
  unfold mkFilename strftime uuidHex8
  rw [strData_append, strData_append, strData_append, strData_append]
  simp [List.append_assoc]

/-! ## Helper lemmas: the expired-id selection -/

theorem mem_expiredList {now : Nat} {st : SysState} {fn : String} :
    fn ∈ expiredList now st ↔ ∃ e : Nat, (fn, e) ∈ st.pdf_files ∧ now > e := by
  unfold expiredList
  constructor
  · intro h
    obtain ⟨⟨a, b⟩, hp, hfe⟩ := List.mem_map.mp h
    obtain ⟨hmem, hcond⟩ := List.mem_filter.mp hp
    have hb : now > b := of_decide_eq_true hcond
    exact ⟨b, by simpa [← hfe] using hmem, hb⟩
  · rintro ⟨e, hmem, hgt⟩
    exact List.mem_map.mpr ⟨(fn, e), List.mem_filter.mpr ⟨hmem, decide_eq_true hgt⟩, rfl⟩

theorem expiredList_nodup {now : Nat} {st : SysState}
    (hn : (st.pdf_files.map Prod.fst).Nodup) : (expiredList now st).Nodup := by
  unfold expiredList
  have hsub : List.Sublist
      ((st.pdf_files.filter (fun p => decide (now > p.2))).map Prod.fst)
      (st.pdf_files.map Prod.fst) := (List.filter_sublist _).map Prod.fst
  exact List.Nodup.sublist hsub hn

/-! ## The claims -/

/-- Claim C10: a sweep cycle deletes only files whose names are expired
keys of the Artifact Store at cycle start; a name that is not a store key,
or whose every store entry has expiry at or after the captured time
(`now ≤ e`, including equality), keeps both its store entry and its file
unchanged by the cycle. -/
theorem C10_sweep_frame (st : SysState) (now : Nat) (fail : String → Bool) (fn : String)
    (h : ∀ e : Nat, (fn, e) ∈ st.pdf_files → now ≤ e) :
    lookupKey fn (cleanupCycle now fail st).pdf_files = lookupKey fn st.pdf_files ∧
    lookupKey fn (cleanupCycle now fail st).fs = lookupKey fn st.fs := by
  have hnm : fn ∉ expiredList now st := by
    intro hmem
    obtain ⟨e, hmemE, hgt⟩ := mem_expiredList.mp hmem
    have := h e hmemE
    omega
  exact foldl_sweep_frame fail (expiredList now st) st hnm

/-- Witness for C10: a concrete store with an entry expiring exactly at the
captured time and an unregistered file; neither is touched by the cycle. -/
theorem C10_witness :
    lookupKey "a.pdf"
        (cleanupCycle 5 (fun _ => false)
          ⟨[("a.pdf", 5)], [("a.pdf", [1]), ("ghost.pdf", [2])]⟩).pdf_files
      = lookupKey "a.pdf"
          (⟨[("a.pdf", 5)], [("a.pdf", [1]), ("ghost.pdf", [2])]⟩ : SysState).pdf_files ∧
    lookupKey "a.pdf"
        (cleanupCycle 5 (fun _ => false)
          ⟨[("a.pdf", 5)], [("a.pdf", [1]), ("ghost.pdf", [2])]⟩).fs
      = lookupKey "a.pdf"
          (⟨[("a.pdf", 5)], [("a.pdf", [1]), ("ghost.pdf", [2])]⟩ : SysState).fs :=
  C10_sweep_frame ⟨[("a.pdf", 5)], [("a.pdf", [1]), ("ghost.pdf", [2])]⟩ 5 (fun _ => false)
    "a.pdf" (by intro e he; simp at he; omega)

/-- Counterexample to claim C1 as stated: an expired id whose backing file
is already gone.  `os.remove` raises, the `except` swallows the error, but
the `del` on the metadata entry is skipped, so the expired id is still in
the store after the cycle (the claim says it must be removed). -/
theorem C1_counterexample :
    "doc_x.pdf" ∈ expiredList 1 ⟨[("doc_x.pdf", 0)], []⟩ ∧
    lookupKey "doc_x.pdf"
        (cleanupCycle 1 (fun _ => false) ⟨[("doc_x.pdf", 0)], []⟩).pdf_files = some 0 := by
  constructor
  · decide
  · decide

/-- Claim C1 (amended): in every sweep cycle, every expired id selected at
cycle start is processed and a file-deletion failure is swallowed (the
cycle continues; the other expired ids are still handled, as this theorem
holds for each of them); but an id whose deletion fails keeps its metadata
entry unchanged in the store, while an id whose deletion succeeds is
removed from both the store and the directory. -/
theorem C1_sweep_failure (st : SysState) (now : Nat) (fail : String → Bool) (fn : String)
    (hnd : (st.pdf_files.map Prod.fst).Nodup) (hmem : fn ∈ expiredList now st) :
    ((fail fn || (lookupKey fn st.fs).isNone) = true →
      lookupKey fn (cleanupCycle now fail st).pdf_files = lookupKey fn st.pdf_files) ∧
    ((fail fn || (lookupKey fn st.fs).isNone) = false →
      lookupKey fn (cleanupCycle now fail st).pdf_files = none ∧
      lookupKey fn (cleanupCycle now fail st).fs = none) := by
  have hele := foldl_sweep_mem fail (expiredList now st) st (expiredList_nodup hnd) hmem
  exact ⟨fun hc => (hele.1 hc).1, hele.2⟩

/-- Witness for C1 (amended): an expired id whose unlink is denied keeps
its store entry; the cycle does not crash. -/
theorem C1_witness :
    lookupKey "a.pdf"
        (cleanupCycle 1 (fun _ => true) ⟨[("a.pdf", 0)], [("a.pdf", [7])]⟩).pdf_files
      = some 0 := by
  have h := C1_sweep_failure ⟨[("a.pdf", 0)], [("a.pdf", [7])]⟩ 1 (fun _ => true) "a.pdf"
    (by decide) (by decide)
  exact (h.1 (by decide)).trans (by decide)

/-- Claim C7: a successful publish registers the generated id with expiry
exactly one hour (3600 s) after the registration-time clock reading, and
leaves every other entry untouched; and no sweep cycle ever rewrites the
expiry of an entry it keeps (an entry is either kept with its original
expiry or removed, never renewed or extended). -/
theorem C7_expiry_fixed (c : List Nat) (t : DateTime) (tr u : Nat) (b : String)
    (st : SysState) :
    (∀ (st1 : SysState) (url : String),
      save_pdf_get_url c t tr u b .success st = .ok st1 url →
      lookupKey (mkFilename t u) st1.pdf_files = some (tr + 3600) ∧
      ∀ fn : String, fn ≠ mkFilename t u →
        lookupKey fn st1.pdf_files = lookupKey fn st.pdf_files) ∧
    (∀ (now : Nat) (fail : String → Bool) (fn : String),
      lookupKey fn (cleanupCycle now fail st).pdf_files = lookupKey fn st.pdf_files ∨
      lookupKey fn (cleanupCycle now fail st).pdf_files = none) := by
  constructor
  · intro st1 url h
    simp only [save_pdf_get_url] at h
    injection h with hst hurl
    constructor
    · rw [← hst]
      exact lookupKey_insertKey_self _ _ _
    · intro fn hfn
      rw [← hst]
      exact lookupKey_insertKey_ne hfn _ _
  · intro now fail fn
    exact foldl_sweep_keep fail (expiredList now st) st fn

/-- Witness for C7: a concrete publish at clock 100 registers expiry 3700. -/
theorem C7_witness :
    lookupKey (mkFilename dt0 7)
        (save_pdf_get_url [1] dt0 100 7 "http://h/" .success st0).stateOf.pdf_files
      = some 3700 :=
  ((C7_expiry_fixed [1] dt0 100 7 "http://h/" st0).1
    (save_pdf_get_url [1] dt0 100 7 "http://h/" .success st0).stateOf
    ("http://h/" ++ "pdfs/" ++ mkFilename dt0 7) rfl).1

/-- Claim C5: when writing the artifact file raises, the id is never
registered (the store part of the state is unchanged, no orphan metadata),
the publish yields no url, and the /text-input request surfaces a server
error (status 500) with the store still unchanged. -/
theorem C5_no_orphan (c : List Nat) (t : DateTime) (tr u : Nat) (b : String)
    (st : SysState) (msg : String) (written : List Nat) (text : String)
    (aj : Bool) (rbody : List Nat) (rtext : String)
    (hlen : text.length ≤ 100000) :
    (save_pdf_get_url c t tr u b (.failOnOpen msg) st).stateOf.pdf_files = st.pdf_files ∧
    (save_pdf_get_url c t tr u b (.failAfterOpen written msg) st).stateOf.pdf_files
      = st.pdf_files ∧
    (save_pdf_get_url c t tr u b (.failOnOpen msg) st).urlOf = none ∧
    (save_pdf_get_url c t tr u b (.failAfterOpen written msg) st).urlOf = none ∧
    (text_input_to_pdf text aj b (.resp 200 rbody rtext) t tr u (.failOnOpen msg) st).response
      = .errorResp 500 ("Error: " ++ msg) ∧
    (text_input_to_pdf text aj b (.resp 200 rbody rtext) t tr u
        (.failOnOpen msg) st).st.pdf_files = st.pdf_files := by
  have hnot : ¬ text.length > 100000 := by omega
  refine ⟨rfl, rfl, rfl, rfl, ?_, ?_⟩
  · simp [text_input_to_pdf, hnot, save_pdf_get_url]
  · simp [text_input_to_pdf, hnot, save_pdf_get_url]

/-- Witness for C5: a concrete failed write surfaces a 500 and registers
nothing. -/
theorem C5_witness :
    (text_input_to_pdf "hi" true "http://h/" (.resp 200 [1] "") dt0 100 7
        (.failOnOpen "disk full") st0).response
      = .errorResp 500 ("Error: " ++ "disk full") :=
  (C5_no_orphan [1] dt0 100 7 "http://h/" st0 "disk full" [2] "hi" true [1] ""
    (by decide)).2.2.2.2.1

/-- Claim C9: a successful publish returns the url formed from the base
url, the fixed routing piece and the filename, and an immediate fetch of
that filename through the static file server returns exactly the bytes
that were published. -/
theorem C9_roundtrip (c : List Nat) (t : DateTime) (tr u : Nat) (b : String)
    (st : SysState) (st1 : SysState) (url : String)
    (h : save_pdf_get_url c t tr u b .success st = .ok st1 url) :
    url = b ++ "pdfs/" ++ mkFilename t u ∧
    staticFetch st1 (mkFilename t u) = some c := by
  simp only [save_pdf_get_url] at h
  injection h with hst hurl
  constructor
  · exact hurl.symm
  · rw [← hst]
    exact lookupKey_insertKey_self _ _ _

/-- Witness for C9: concrete bytes survive the publish/fetch round trip. -/
theorem C9_witness :
    staticFetch (save_pdf_get_url [3, 4] dt0 100 7 "http://h/" .success st0).stateOf
      (mkFilename dt0 7) = some [3, 4] :=
  (C9_roundtrip [3, 4] dt0 100 7 "http://h/" st0
    (save_pdf_get_url [3, 4] dt0 100 7 "http://h/" .success st0).stateOf
    ("http://h/" ++ "pdfs/" ++ mkFilename dt0 7) rfl).2

/-- Counterexample to claim C6 as stated: two publishes in one process
lifetime, in the same wall-clock second and with the same drawn random
token, produce the same id, so ids are not unconditionally distinct. -/
theorem C6_counterexample :
    (save_pdf_get_url [1] dt0 100 7 "http://h/" .success st0).urlOf =
      (save_pdf_get_url [2] dt0 101 7 "http://h/" .success
        (save_pdf_get_url [1] dt0 100 7 "http://h/" .success st0).stateOf).urlOf ∧
    (save_pdf_get_url [1] dt0 100 7 "http://h/" .success st0).urlOf
      = some "http://h/pdfs/doc_20250102_030405_00000000.pdf" := by
  constructor
  · rfl
  · decide

/-- Claim C6 (amended): two generated ids can coincide only when both the
second-resolution timestamp strings and the drawn 8-hex tokens coincide;
whenever either differs the ids are distinct.  Uniqueness is therefore
probabilistic (same-second publishes drawing the same token collide), not
guaranteed. -/
theorem C6_distinct (t1 t2 : DateTime) (u1 u2 : Nat)
    (h : mkFilename t1 u1 = mkFilename t2 u2) :
    strftime t1 = strftime t2 ∧ uuidHex8 u1 = uuidHex8 u2 := by
  have hd : (mkFilename t1 u1).data = (mkFilename t2 u2).data := by rw [h]
  rw [mkFilename_data, mkFilename_data] at hd
  have h1 := (List.append_inj hd rfl).2
  have hlen : (strftimeChars t1).length = (strftimeChars t2).length := by
    rw [strftimeChars_length, strftimeChars_length]
  have h2 := List.append_inj h1 hlen
  refine ⟨congrArg String.mk h2.1, ?_⟩
  have h3 : '_' :: (uuidHex8Chars u1 ++ ".pdf".data)
      = '_' :: (uuidHex8Chars u2 ++ ".pdf".data) := h2.2
  have h4 := (List.cons.inj h3).2
  have hlen2 : (uuidHex8Chars u1).length = (uuidHex8Chars u2).length := by
    rw [uuidHex8Chars_length, uuidHex8Chars_length]
  exact congrArg String.mk (List.append_inj h4 hlen2).1

/-- Witness for C6 (amended), instantiated at a concrete coincidence. -/
theorem C6_witness : strftime dt0 = strftime dt0 ∧ uuidHex8 7 = uuidHex8 7 :=
  C6_distinct dt0 dt0 7 7 rfl

/-- Claim C8: every generated filename is "doc_", then the
second-resolution timestamp text, then "_", then an 8-character lowercase
hexadecimal token, then ".pdf"; and the token carries 32 bits of the drawn
uuid (it determines the top 32 bits of any 128-bit draw). -/
theorem C8_filename_shape (dt : DateTime) (u : Nat) :
    mkFilename dt u = "doc_" ++ strftime dt ++ "_" ++ uuidHex8 u ++ ".pdf" ∧
    (uuidHex8Chars u).length = 8 ∧
    (∀ c ∈ uuidHex8Chars u, c ∈ hexAlphabet) ∧
    (∀ u1 u2 : Nat, u1 < 2 ^ 128 → u2 < 2 ^ 128 → uuidHex8 u1 = uuidHex8 u2 →
      u1 / 2 ^ 96 = u2 / 2 ^ 96) := by
  refine ⟨rfl, uuidHex8Chars_length u, ?_, ?_⟩
  · intro c hc
    rw [uuidHex8Chars_eq] at hc
    obtain ⟨a, ha, rfl⟩ := hexDigits_mem 8 _ c hc
    exact hexDigitChar_mem_alphabet a ha
  · intro u1 u2 h1 h2 he
    have h5 : String.mk (uuidHex8Chars u1) = String.mk (uuidHex8Chars u2) := he
    have hd : uuidHex8Chars u1 = uuidHex8Chars u2 := by injection h5
    rw [uuidHex8Chars_eq, uuidHex8Chars_eq] at hd
    have hpow : (16 : Nat) ^ 8 = 2 ^ 32 := by norm_num
    have hb1 : u1 / 2 ^ 96 < 16 ^ 8 := by
      rw [hpow]
      exact (Nat.div_lt_iff_lt_mul (by positivity)).mpr (by norm_num at h1 ⊢; omega)
    have hb2 : u2 / 2 ^ 96 < 16 ^ 8 := by
      rw [hpow]
      exact (Nat.div_lt_iff_lt_mul (by positivity)).mpr (by norm_num at h2 ⊢; omega)
    exact hexDigits_inj 8 _ _ hb1 hb2 hd

/-- Witness for C8: a concrete token character and a concrete application
of the injectivity conjunct. -/
theorem C8_witness : ('0' ∈ hexAlphabet) ∧ (7 : Nat) / 2 ^ 96 = 7 / 2 ^ 96 :=
  ⟨(C8_filename_shape dt0 7).2.2.1 '0' (by decide),
   (C8_filename_shape dt0 7).2.2.2 7 7 (by norm_num) (by norm_num) rfl⟩

/-- Claim C2 (code behavior at the failing input): a 150000-character
markdown body is rejected before any upstream call (no payload is sent),
but the `HTTPException(400, ...)` raised at main.py:228 is caught by the
blanket `except Exception` at main.py:295 and re-raised as status 500, so
the client sees 500, not the 400 the claim states. -/
theorem C2_oversize_behavior :
    (text_input_to_pdf (String.mk (List.replicate 150000 'a')) false "http://h/"
        (.resp 200 [1] "") dt0 100 7 .success st0).response
      = .errorResp 500
          ("Error: 400: Markdown content too large: 150000 bytes. Maximum allowed is 100KB.") ∧
    (text_input_to_pdf (String.mk (List.replicate 150000 'a')) false "http://h/"
        (.resp 200 [1] "") dt0 100 7 .success st0).sent = [] := by
  have hlen : (String.mk (List.replicate 150000 'a')).length = 150000 := by
    show (List.replicate 150000 'a').length = 150000
    rw [List.length_replicate]
  have hgt : (String.mk (List.replicate 150000 'a')).length > 100000 := by
    rw [hlen]; norm_num
  constructor
  · unfold text_input_to_pdf
    rw [if_pos hgt, hlen]
    decide
  · unfold text_input_to_pdf
    rw [if_pos hgt]

/-- Claim C3 (code behavior at the failing input): when the external
converter answers 502 with body "Bad Gateway", the
`HTTPException(502, ...)` raised at main.py:260 is caught by the blanket
`except Exception` at main.py:295 and re-raised as status 500; the
upstream body text survives only inside the detail string, and the
upstream status is not propagated as the claim states. -/
theorem C3_upstream_status :
    (text_input_to_pdf "# hi" false "http://h/" (.resp 502 [] "Bad Gateway") dt0 100 7
        .success st0).response
      = .errorResp 500 ("Error: 502: External API error: Bad Gateway") ∧
    (text_input_to_pdf "# hi" false "http://h/" (.resp 502 [] "Bad Gateway") dt0 100 7
        .success st0).sent = ["# hi"] := by
  constructor
  · decide
  · decide

/-- Claim C4 (against the spec-modelled endpoint): every request whose
lowercased text is not exactly "go" gets a client error with status 400,
no upstream call, and an unchanged state; a request whose lowercased text
is "go" (any casing) runs exactly the same conversion flow on the fixed,
hardcoded markdown document. -/
theorem C4_fixed_input (text : String) (aj : Bool) (b : String) (up : UpstreamResult)
    (t : DateTime) (tr u : Nat) (w : WriteOutcome) (st : SysState) :
    (pyLower text ≠ "go" →
      (fixed_input_to_pdf text aj b up t tr u w st).response.statusOf = 400 ∧
      (∃ d, (fixed_input_to_pdf text aj b up t tr u w st).response = .errorResp 400 d) ∧
      (fixed_input_to_pdf text aj b up t tr u w st).sent = [] ∧
      (fixed_input_to_pdf text aj b up t tr u w st).st = st) ∧
    (pyLower text = "go" →
      fixed_input_to_pdf text aj b up t tr u w st
        = text_input_to_pdf fixedMarkdown aj b up t tr u w st) := by
  constructor
  · intro h
    unfold fixed_input_to_pdf
    rw [if_pos h]
    exact ⟨rfl, ⟨_, rfl⟩, rfl, rfl⟩
  · intro h
    unfold fixed_input_to_pdf
    rw [if_neg (fun hn => hn h)]

/-- Witness for C4: "stop" is rejected with no upstream call; "GO" runs
the fixed-document conversion flow. -/
theorem C4_witness :
    (fixed_input_to_pdf "stop" true "http://h/" (.resp 200 [1] "") dt0 100 7
        .success st0).sent = [] ∧
    fixed_input_to_pdf "GO" true "http://h/" (.resp 200 [1] "") dt0 100 7 .success st0
      = text_input_to_pdf fixedMarkdown true "http://h/" (.resp 200 [1] "") dt0 100 7
          .success st0 :=
  ⟨((C4_fixed_input "stop" true "http://h/" (.resp 200 [1] "") dt0 100 7 .success st0).1
      (by decide)).2.2.1,
   (C4_fixed_input "GO" true "http://h/" (.resp 200 [1] "") dt0 100 7 .success st0).2
      (by decide)⟩
